import Mathlib

/-!
Shallow embedding of the analysis code of the mcp-travis server
(`src/index.ts`): the statistics computed by the `travis_getBuildInsights`
handler and the log analyzer of the `travis_getOptimizationRecommendations`
handler, together with theorems settling the frozen claims about them.

JS numbers appearing in rate and average computations are modelled as `ℚ`;
build and job durations are integral seconds and are modelled as `ℕ`.
-/

namespace McpTravis

/-- Build record fields consumed by `travis_getBuildInsights`
(`build.state`, `build.duration`, `build.branch?.name`); all three are
optional in the Travis API payload. -/
structure Build where
  state : Option String
  duration : Option Nat
  branchName : Option String
deriving DecidableEq

/-- The handler's `const state = build.state || 'unknown'` (JS `||`:
both `undefined` and the empty string are falsy). -/
def stateOf (b : Build) : String :=
  match b.state with
  | none => "unknown"
  | some s => if s = "" then "unknown" else s

/-- The handler's `build.branch?.name || 'unknown'`. -/
def branchOf (b : Build) : String :=
  match b.branchName with
  | none => "unknown"
  | some s => if s = "" then "unknown" else s

/-- `let totalBuilds = builds.length`. -/
def totalBuilds (builds : List Build) : Nat := builds.length

/-- Count accumulated by `if (state === 'passed') passedBuilds++` over the loop. -/
def passedBuilds (builds : List Build) : Nat :=
  (builds.filter (fun b => stateOf b = "passed")).length

/-- Count accumulated by `else if (state === 'failed') failedBuilds++`. -/
def failedBuilds (builds : List Build) : Nat :=
  (builds.filter (fun b => stateOf b = "failed")).length

/-- Count accumulated by `else if (state === 'canceled') canceledBuilds++`. -/
def canceledBuilds (builds : List Build) : Nat :=
  (builds.filter (fun b => stateOf b = "canceled")).length

/-- Count accumulated by `else if (state === 'errored') erroredBuilds++`. -/
def erroredBuilds (builds : List Build) : Nat :=
  (builds.filter (fun b => stateOf b = "errored")).length

/-- The `stateCount` record: `stateCount[state] = (stateCount[state] || 0) + 1`. -/
def stateCount (builds : List Build) (s : String) : Nat :=
  (builds.filter (fun b => stateOf b = s)).length

/-- `const completedBuilds = passedBuilds + failedBuilds + erroredBuilds`. -/
def completedBuilds (builds : List Build) : Nat :=
  passedBuilds builds + failedBuilds builds + erroredBuilds builds

/-- `const passRate = completedBuilds > 0 ? (passedBuilds / completedBuilds) * 100 : 0`. -/
def passRate (builds : List Build) : ℚ :=
  if completedBuilds builds > 0 then
    (passedBuilds builds : ℚ) / (completedBuilds builds : ℚ) * 100
  else 0

/-- `const recentBuilds = builds.slice(0, Math.min(10, builds.length))`. -/
def recentBuilds (builds : List Build) : List Build :=
  builds.take (min 10 builds.length)

/-- `recentBuilds.filter((b) => b.state === 'passed').length` (note: this site
tests `b.state` directly, without the `|| 'unknown'` defaulting). -/
def recentPassed (builds : List Build) : Nat :=
  ((recentBuilds builds).filter (fun b => b.state = some "passed")).length

/-- `recentBuilds.filter((b) => b.state === 'failed').length`. -/
def recentFailed (builds : List Build) : Nat :=
  ((recentBuilds builds).filter (fun b => b.state = some "failed")).length

/-- `const recentCompletedBuilds = recentPassed + recentFailed`. -/
def recentCompletedBuilds (builds : List Build) : Nat :=
  recentPassed builds + recentFailed builds

/-- `const recentPassRate = recentCompletedBuilds > 0 ?
(recentPassed / recentCompletedBuilds) * 100 : 0`. -/
def recentPassRate (builds : List Build) : ℚ :=
  if recentCompletedBuilds builds > 0 then
    (recentPassed builds : ℚ) / (recentCompletedBuilds builds : ℚ) * 100
  else 0

/-- `branchStats[branchName].total`, accumulated by `branchStats[branchName].total++`. -/
def branchTotal (builds : List Build) (br : String) : Nat :=
  (builds.filter (fun b => branchOf b = br)).length

/-- `branchStats[branchName].passed`: incremented when `state === 'passed'`. -/
def branchPassed (builds : List Build) (br : String) : Nat :=
  (builds.filter (fun b => branchOf b = br ∧ stateOf b = "passed")).length

/-- `branchStats[branchName].failed`: incremented when `state === 'failed'`. -/
def branchFailed (builds : List Build) (br : String) : Nat :=
  (builds.filter (fun b => branchOf b = br ∧ stateOf b = "failed")).length

/-- `const branchPassRate = stats.total > 0 ? (stats.passed / stats.total) * 100 : 0`. -/
def branchPassRate (builds : List Build) (br : String) : ℚ :=
  if branchTotal builds br > 0 then
    (branchPassed builds br : ℚ) / (branchTotal builds br : ℚ) * 100
  else 0

/-- The `durations` array: pushed for each build with
`build.duration && build.duration > 0` (JS truthiness: defined and nonzero). -/
def durationsOf (builds : List Build) : List Nat :=
  builds.filterMap (fun b =>
    match b.duration with
    | some d => if 0 < d then some d else none
    | none => none)

/-- `buildsWithDuration`, incremented alongside each `durations.push`. -/
def buildsWithDuration (builds : List Build) : Nat := (durationsOf builds).length

/-- `totalDuration`, accumulated alongside each `durations.push`. -/
def totalDuration (builds : List Build) : Nat := (durationsOf builds).sum

/-- `const avgDuration = buildsWithDuration > 0 ? totalDuration / buildsWithDuration : 0`
(JS division, hence a rational value in general). -/
def avgDuration (builds : List Build) : ℚ :=
  if buildsWithDuration builds > 0 then
    (totalDuration builds : ℚ) / (buildsWithDuration builds : ℚ)
  else 0

/-- `durations.sort((a, b) => a - b)`: ascending numeric sort. -/
def sortedDurations (builds : List Build) : List Nat :=
  List.mergeSort (durationsOf builds) (fun a b => decide (a ≤ b))

/-- `const medianDuration = durations.length > 0 ? durations[Math.floor(durations.length / 2)] : 0`. -/
def medianDuration (builds : List Build) : Nat :=
  (sortedDurations builds).getD ((sortedDurations builds).length / 2) 0

/-- `const minDuration = durations.length > 0 ? durations[0] : 0`. -/
def minDuration (builds : List Build) : Nat :=
  (sortedDurations builds).getD 0 0

/-- `const maxDuration = durations.length > 0 ? durations[durations.length - 1] : 0`. -/
def maxDuration (builds : List Build) : Nat :=
  (sortedDurations builds).getD ((sortedDurations builds).length - 1) 0

/-- `Math.floor(d / 60)`, the minutes part of each rendered duration. -/
def renderMinutes (d : ℚ) : ℤ := ⌊d / 60⌋

/-- JS `d % 60`, the seconds part of each rendered duration: for
nonnegative `d` the JS remainder is `d - 60 * Math.floor(d / 60)`. -/
def renderSeconds (d : ℚ) : ℚ := d - 60 * (⌊d / 60⌋ : ℚ)

/-- The trend line appended after `Pass Rate: ...`:
`if (recentPassRate > passRate + 5) ... else if (recentPassRate < passRate - 5) ... else ...`. -/
def trendLabel (recentRate overallRate : ℚ) : String :=
  if recentRate > overallRate + 5 then " 📈 Improving!\n"
  else if recentRate < overallRate - 5 then " 📉 Declining\n"
  else " ➡ Stable\n"

/-- Trend line the handler emits for a given build list. -/
def trendOf (builds : List Build) : String :=
  trendLabel (recentPassRate builds) (passRate builds)

/-- Build list whose recent pass rate exceeds its overall pass rate by
exactly 5 percentage points: ten passed builds first, then nine passed and
one failed. -/
def exStableBoundary : List Build :=
  List.replicate 10 ⟨some "passed", none, none⟩ ++
    (List.replicate 9 ⟨some "passed", none, none⟩ ++ [⟨some "failed", none, none⟩])

theorem completedBuilds_eq_filter (builds : List Build) :
    completedBuilds builds =
      (builds.filter (fun b =>
        stateOf b = "passed" ∨ stateOf b = "failed" ∨ stateOf b = "errored")).length := by
  induction builds with
  | nil => rfl
  | cons b bs ih =>
    simp only [completedBuilds, passedBuilds, failedBuilds, erroredBuilds,
      List.filter_cons] at *
    by_cases h1 : stateOf b = "passed" <;> by_cases h2 : stateOf b = "failed" <;>
      by_cases h3 : stateOf b = "errored" <;>
      simp [h1, h2, h3] at * <;> omega

/-- C5: for every build list the overall pass rate lies in `[0, 100]` and is
`0` when `passed + failed + errored = 0`; builds in state `"canceled"` or in
a state outside the classified vocabulary are excluded from the
completed-build denominator (which counts exactly the passed, failed and
errored builds) but are counted in the total build count and in the
per-state counts. -/
theorem passRate_bounds_and_state_classification (builds : List Build) :
    0 ≤ passRate builds ∧ passRate builds ≤ 100 ∧
    (completedBuilds builds = 0 → passRate builds = 0) ∧
    totalBuilds builds = builds.length ∧
    completedBuilds builds =
      (builds.filter (fun b =>
        stateOf b = "passed" ∨ stateOf b = "failed" ∨ stateOf b = "errored")).length ∧
    stateCount builds "canceled" = canceledBuilds builds ∧
    stateCount builds "unknown" = (builds.filter (fun b => stateOf b = "unknown")).length := by
  refine ⟨?_, ?_, ?_, rfl, completedBuilds_eq_filter builds, rfl, rfl⟩
  · unfold passRate
    split_ifs with h
    · positivity
    · exact le_refl 0
  · unfold passRate
    split_ifs with h
    · have hc : (0 : ℚ) < (completedBuilds builds : ℚ) := by exact_mod_cast h
      have hle : (passedBuilds builds : ℚ) ≤ (completedBuilds builds : ℚ) := by
        have : passedBuilds builds ≤ completedBuilds builds := by
          unfold completedBuilds; omega
        exact_mod_cast this
      have h1 : (passedBuilds builds : ℚ) / (completedBuilds builds : ℚ) ≤ 1 :=
        (div_le_one hc).mpr hle
      linarith
    · norm_num
  · intro h
    unfold passRate
    simp [h]

theorem passRate_bounds_witness :
    0 ≤ passRate [] ∧ passRate [] ≤ 100 ∧ passRate [] = 0 := by
  have h := passRate_bounds_and_state_classification []
  exact ⟨h.1, h.2.1, h.2.2.1 (by decide)⟩

/-- C6: the trend line is the "Improving" one exactly when the recent rate
exceeds the overall rate by strictly more than 5 percentage points, the
"Declining" one exactly when it is strictly more than 5 points below, and
the "Stable" one otherwise; a difference of exactly 5 points yields
"Stable", witnessed by a concrete build list whose recent rate is 100% and
overall rate 95%. -/
theorem trend_label_thresholds :
    (∀ builds : List Build,
      (trendOf builds = " 📈 Improving!\n" ↔
        recentPassRate builds - passRate builds > 5) ∧
      (trendOf builds = " 📉 Declining\n" ↔
        recentPassRate builds - passRate builds < -5) ∧
      (trendOf builds = " ➡ Stable\n" ↔
        (-5 ≤ recentPassRate builds - passRate builds ∧
          recentPassRate builds - passRate builds ≤ 5))) ∧
    recentPassRate exStableBoundary - passRate exStableBoundary = 5 ∧
    trendOf exStableBoundary = " ➡ Stable\n" := by
  have hIS : (" 📈 Improving!\n" : String) ≠ " ➡ Stable\n" := by decide
  have hDS : (" 📉 Declining\n" : String) ≠ " ➡ Stable\n" := by decide
  have hID : (" 📈 Improving!\n" : String) ≠ " 📉 Declining\n" := by decide
  have hgen : ∀ builds : List Build,
      (trendOf builds = " 📈 Improving!\n" ↔
        recentPassRate builds - passRate builds > 5) ∧
      (trendOf builds = " 📉 Declining\n" ↔
        recentPassRate builds - passRate builds < -5) ∧
      (trendOf builds = " ➡ Stable\n" ↔
        (-5 ≤ recentPassRate builds - passRate builds ∧
          recentPassRate builds - passRate builds ≤ 5)) := by
    intro builds
    unfold trendOf trendLabel
    split_ifs with h1 h2
    · exact ⟨⟨fun _ => by linarith, fun _ => rfl⟩,
        ⟨fun heq => absurd heq hID, fun hlt => by linarith⟩,
        ⟨fun heq => absurd heq hIS, fun hb => by linarith [hb.2]⟩⟩
    · exact ⟨⟨fun heq => absurd heq.symm hID, fun hgt => by linarith⟩,
        ⟨fun _ => by linarith, fun _ => rfl⟩,
        ⟨fun heq => absurd heq hDS, fun hb => by linarith [hb.1]⟩⟩
    · exact ⟨⟨fun heq => absurd heq.symm hIS, fun hgt => by linarith⟩,
        ⟨fun heq => absurd heq.symm hDS, fun hlt => by linarith⟩,
        ⟨fun _ => ⟨by linarith, by linarith⟩, fun _ => rfl⟩⟩
  have hrp : recentPassed exStableBoundary = 10 := by decide
  have hrf : recentFailed exStableBoundary = 0 := by decide
  have hp : passedBuilds exStableBoundary = 19 := by decide
  have hf : failedBuilds exStableBoundary = 1 := by decide
  have he : erroredBuilds exStableBoundary = 0 := by decide
  have hrate : passRate exStableBoundary = 95 := by
    rw [passRate, completedBuilds, hp, hf, he]
    norm_num
  have hrrate : recentPassRate exStableBoundary = 100 := by
    rw [recentPassRate, recentCompletedBuilds, hrp, hrf]
    norm_num
  refine ⟨hgen, by rw [hrate, hrrate]; norm_num, ?_⟩
  have := (hgen exStableBoundary).2.2.mpr (by rw [hrate, hrrate]; norm_num)
  exact this

theorem ratio_bounds (p c : ℕ) (hpc : p ≤ c) :
    0 ≤ (if c > 0 then (p : ℚ) / (c : ℚ) * 100 else 0) ∧
    (if c > 0 then (p : ℚ) / (c : ℚ) * 100 else 0) ≤ 100 := by
  split_ifs with h
  · have hc : (0 : ℚ) < (c : ℚ) := by exact_mod_cast h
    refine ⟨by positivity, ?_⟩
    have h1 : (p : ℚ) / (c : ℚ) ≤ 1 := (div_le_one hc).mpr (by exact_mod_cast hpc)
    linarith
  · norm_num

theorem stateOf_eq_iff (b : Build) (s : String) (hs1 : s ≠ "") (hs2 : s ≠ "unknown") :
    stateOf b = s ↔ b.state = some s := by
  cases hb : b.state with
  | none =>
    have h : stateOf b = "unknown" := by unfold stateOf; rw [hb]
    rw [h]
    constructor
    · intro h2; exact absurd h2.symm hs2
    · intro h2; cases h2
  | some t =>
    have h : stateOf b = if t = "" then "unknown" else t := by unfold stateOf; rw [hb]
    rw [h]
    by_cases ht : t = ""
    · rw [if_pos ht, ht]
      constructor
      · intro h2; exact absurd h2.symm hs2
      · intro h2; injection h2 with h2; exact absurd h2.symm hs1
    · rw [if_neg ht]
      constructor
      · intro h2; exact congrArg some h2
      · intro h2; injection h2

theorem recentBuilds_take (builds : List Build) :
    recentBuilds builds = builds.take 10 := by
  unfold recentBuilds
  rw [List.take_eq_take]
  omega

theorem recentPassed_eq (builds : List Build) :
    recentPassed builds = passedBuilds (builds.take 10) := by
  unfold recentPassed passedBuilds
  rw [recentBuilds_take]
  congr 1
  refine List.filter_congr (fun b _ => ?_)
  simp only [decide_eq_decide]
  exact (stateOf_eq_iff b "passed" (by decide) (by decide)).symm

theorem recentFailed_eq (builds : List Build) :
    recentFailed builds = failedBuilds (builds.take 10) := by
  unfold recentFailed failedBuilds
  rw [recentBuilds_take]
  congr 1
  refine List.filter_congr (fun b _ => ?_)
  simp only [decide_eq_decide]
  exact (stateOf_eq_iff b "failed" (by decide) (by decide)).symm

/-- C1 (amended): the recent-trend rate is computed over the first
`min(10, total)` builds (equivalently the first 10), counting passed and
failed builds by the same per-state classification as the overall counts,
but its denominator is `passedRecent + failedRecent` only: errored builds
are excluded from the recent denominator, unlike the overall pass rate's
`passed + failed + errored` denominator. The recent rate still lies in
`[0, 100]` and is `0` when `passedRecent + failedRecent = 0`. -/
theorem recent_trend_excludes_errored (builds : List Build) :
    recentBuilds builds = builds.take 10 ∧
    recentPassed builds = passedBuilds (builds.take 10) ∧
    recentFailed builds = failedBuilds (builds.take 10) ∧
    recentPassRate builds =
      (if 0 < passedBuilds (builds.take 10) + failedBuilds (builds.take 10) then
        (passedBuilds (builds.take 10) : ℚ) /
          ((passedBuilds (builds.take 10) + failedBuilds (builds.take 10) : ℕ) : ℚ) * 100
      else 0) ∧
    0 ≤ recentPassRate builds ∧ recentPassRate builds ≤ 100 := by
  have hp := recentPassed_eq builds
  have hf := recentFailed_eq builds
  have hb := ratio_bounds (recentPassed builds) (recentCompletedBuilds builds)
    (by unfold recentCompletedBuilds; omega)
  refine ⟨recentBuilds_take builds, hp, hf, ?_, ?_, ?_⟩
  · rw [recentPassRate, recentCompletedBuilds, hp, hf]
  · rw [recentPassRate]; exact hb.1
  · rw [recentPassRate]; exact hb.2

/-- Build list with one errored and one passed build, both within the
recent window. -/
def exRecentErrored : List Build :=
  [⟨some "errored", none, none⟩, ⟨some "passed", none, none⟩]

/-- Count of errored builds in the recent window. The code computes no such
count; this definition follows the claim's words, for comparison. -/
def claimedRecentErrored (builds : List Build) : Nat :=
  ((recentBuilds builds).filter (fun b => b.state = some "errored")).length

/-- Recent rate as claim C1 states it: the overall pass-rate formula
(`passed / (passed + failed + errored)`, zero when that denominator is
zero) applied to the first `min(10, total)` builds. Follows the claim's
words, for comparison with `recentPassRate`. -/
def claimedRecentPassRate (builds : List Build) : ℚ :=
  if 0 < recentPassed builds + recentFailed builds + claimedRecentErrored builds then
    (recentPassed builds : ℚ) /
      ((recentPassed builds + recentFailed builds + claimedRecentErrored builds : ℕ) : ℚ) * 100
  else 0

theorem recent_trend_claim_counterexample :
    recentPassRate exRecentErrored = 100 ∧
    claimedRecentPassRate exRecentErrored = 50 ∧
    recentPassRate exRecentErrored ≠ claimedRecentPassRate exRecentErrored := by
  have h1 : recentPassed exRecentErrored = 1 := by decide
  have h2 : recentFailed exRecentErrored = 0 := by decide
  have h3 : claimedRecentErrored exRecentErrored = 1 := by decide
  have hr : recentPassRate exRecentErrored = 100 := by
    rw [recentPassRate, recentCompletedBuilds, h1, h2]; norm_num
  have hc : claimedRecentPassRate exRecentErrored = 50 := by
    rw [claimedRecentPassRate, h1, h2, h3]; norm_num
  exact ⟨hr, hc, by rw [hr, hc]; norm_num⟩

theorem branchPassed_eq (builds : List Build) (br : String) :
    branchPassed builds br =
      passedBuilds (builds.filter (fun b => branchOf b = br)) := by
  unfold branchPassed passedBuilds
  rw [List.filter_filter]
  congr 1
  refine List.filter_congr (fun b _ => ?_)
  simp [Bool.and_comm]

theorem branchFailed_eq (builds : List Build) (br : String) :
    branchFailed builds br =
      failedBuilds (builds.filter (fun b => branchOf b = br)) := by
  unfold branchFailed failedBuilds
  rw [List.filter_filter]
  congr 1
  refine List.filter_congr (fun b _ => ?_)
  simp [Bool.and_comm]

/-- C3 (amended): the per-branch rate in the branch breakdown divides the
branch's passed-build count by the branch's TOTAL build count — all builds
on that branch, whatever their state, including canceled and
unknown-state builds — not by `passed + failed + errored` on that branch.
It lies in `[0, 100]`. -/
theorem branch_rate_uses_total (builds : List Build) (br : String) :
    branchTotal builds br = (builds.filter (fun b => branchOf b = br)).length ∧
    branchPassed builds br =
      passedBuilds (builds.filter (fun b => branchOf b = br)) ∧
    branchPassRate builds br =
      (if 0 < (builds.filter (fun b => branchOf b = br)).length then
        (passedBuilds (builds.filter (fun b => branchOf b = br)) : ℚ) /
          ((builds.filter (fun b => branchOf b = br)).length : ℚ) * 100
      else 0) ∧
    0 ≤ branchPassRate builds br ∧ branchPassRate builds br ≤ 100 := by
  have hp := branchPassed_eq builds br
  have hle : branchPassed builds br ≤ branchTotal builds br := by
    rw [hp]
    exact List.length_filter_le _ _
  have hb := ratio_bounds (branchPassed builds br) (branchTotal builds br) hle
  refine ⟨rfl, hp, ?_, ?_, ?_⟩
  · rw [branchPassRate, branchTotal, hp]
  · rw [branchPassRate]; exact hb.1
  · rw [branchPassRate]; exact hb.2

/-- Build list whose only branch `main` has one passed and one canceled
build. -/
def exBranchCanceled : List Build :=
  [⟨some "passed", none, some "main"⟩, ⟨some "canceled", none, some "main"⟩]

/-- Branch errored-build count, which the code's `branchStats` does not
track. Follows the claim's words, for comparison. -/
def claimedBranchErrored (builds : List Build) (br : String) : Nat :=
  (builds.filter (fun b => branchOf b = br ∧ stateOf b = "errored")).length

/-- Per-branch rate as claim C3 states it: passed builds of the branch
divided by `passed + failed + errored` of the branch. Follows the claim's
words, for comparison with `branchPassRate`. -/
def claimedBranchPassRate (builds : List Build) (br : String) : ℚ :=
  if 0 < branchPassed builds br + branchFailed builds br + claimedBranchErrored builds br then
    (branchPassed builds br : ℚ) /
      ((branchPassed builds br + branchFailed builds br +
        claimedBranchErrored builds br : ℕ) : ℚ) * 100
  else 0

theorem branch_rate_claim_counterexample :
    branchPassRate exBranchCanceled "main" = 50 ∧
    claimedBranchPassRate exBranchCanceled "main" = 100 ∧
    branchPassRate exBranchCanceled "main" ≠ claimedBranchPassRate exBranchCanceled "main" := by
  have h1 : branchPassed exBranchCanceled "main" = 1 := by decide
  have h2 : branchFailed exBranchCanceled "main" = 0 := by decide
  have h3 : claimedBranchErrored exBranchCanceled "main" = 0 := by decide
  have h4 : branchTotal exBranchCanceled "main" = 2 := by decide
  have hr : branchPassRate exBranchCanceled "main" = 50 := by
    rw [branchPassRate, h1, h4]; norm_num
  have hc : claimedBranchPassRate exBranchCanceled "main" = 100 := by
    rw [claimedBranchPassRate, h1, h2, h3]; norm_num
  exact ⟨hr, hc, by rw [hr, hc]; norm_num⟩

theorem floor_natCast_div_sixty (d : ℕ) :
    ⌊(d : ℚ) / (60 : ℚ)⌋ = ((d / 60 : ℕ) : ℤ) := by
  have h0 : (0 : ℚ) ≤ (d : ℚ) / 60 := by positivity
  have h1 : ⌊(d : ℚ) / (60 : ℚ)⌋ = (⌊(d : ℚ) / (60 : ℚ)⌋₊ : ℤ) := by
    rw [← Int.floor_toNat, Int.toNat_of_nonneg (Int.floor_nonneg.mpr h0)]
  rw [h1]
  norm_cast

theorem renderMinutes_natCast (d : ℕ) :
    renderMinutes (d : ℚ) = ((d / 60 : ℕ) : ℤ) := by
  unfold renderMinutes
  exact floor_natCast_div_sixty d

theorem renderSeconds_natCast (d : ℕ) :
    renderSeconds (d : ℚ) = ((d % 60 : ℕ) : ℚ) := by
  unfold renderSeconds
  rw [floor_natCast_div_sixty d, Int.cast_natCast]
  have h := Nat.div_add_mod d 60
  have h2 : ((60 * (d / 60) + d % 60 : ℕ) : ℚ) = (d : ℚ) :=
    congrArg (Nat.cast : ℕ → ℚ) h
  push_cast at h2
  linarith

theorem renderSeconds_bounds (q : ℚ) :
    0 ≤ renderSeconds q ∧ renderSeconds q < 60 := by
  unfold renderSeconds
  have hle : ((⌊q / 60⌋ : ℚ)) ≤ q / 60 := Int.floor_le (q / 60)
  have hlt : q / 60 < (⌊q / 60⌋ : ℚ) + 1 := Int.lt_floor_add_one (q / 60)
  have hq : q / 60 * 60 = q := div_mul_cancel₀ q (by norm_num)
  constructor
  · nlinarith
  · nlinarith

/-- C4 (amended): every duration statistic is rendered with minutes
`Math.floor(d / 60)` and seconds equal to the exact remainder
`d - 60 * Math.floor(d / 60)` (JS `%`). For the median, fastest and
slowest — which are elements of the integral duration list — this
coincides with integer division and integer modulo by 60, and the seconds
part always lies in `[0, 60)`; but the arithmetic-mean average is a
rational value and its rendered seconds part is its exact (possibly
fractional) remainder, not an integer modulo in general. -/
theorem duration_rendering (builds : List Build) :
    renderMinutes (medianDuration builds : ℚ) = ((medianDuration builds / 60 : ℕ) : ℤ) ∧
    renderSeconds (medianDuration builds : ℚ) = ((medianDuration builds % 60 : ℕ) : ℚ) ∧
    renderMinutes (minDuration builds : ℚ) = ((minDuration builds / 60 : ℕ) : ℤ) ∧
    renderSeconds (minDuration builds : ℚ) = ((minDuration builds % 60 : ℕ) : ℚ) ∧
    renderMinutes (maxDuration builds : ℚ) = ((maxDuration builds / 60 : ℕ) : ℤ) ∧
    renderSeconds (maxDuration builds : ℚ) = ((maxDuration builds % 60 : ℕ) : ℚ) ∧
    (renderMinutes (avgDuration builds) : ℚ) * 60 + renderSeconds (avgDuration builds) =
      avgDuration builds ∧
    0 ≤ renderSeconds (avgDuration builds) ∧ renderSeconds (avgDuration builds) < 60 :=
  ⟨renderMinutes_natCast _, renderSeconds_natCast _,
   renderMinutes_natCast _, renderSeconds_natCast _,
   renderMinutes_natCast _, renderSeconds_natCast _,
   by unfold renderMinutes renderSeconds; ring,
   (renderSeconds_bounds _).1, (renderSeconds_bounds _).2⟩

/-- Build list with two passed builds of durations 1 and 2 seconds, whose
average duration is the non-integral value 1.5. -/
def exFractionalAvg : List Build :=
  [⟨some "passed", some 1, none⟩, ⟨some "passed", some 2, none⟩]

theorem average_seconds_fractional :
    avgDuration exFractionalAvg = 3 / 2 ∧
    renderSeconds (avgDuration exFractionalAvg) = 3 / 2 ∧
    (renderSeconds (avgDuration exFractionalAvg)).den ≠ 1 ∧
    renderSeconds (avgDuration exFractionalAvg) ≠
      ((⌊avgDuration exFractionalAvg⌋ % 60 : ℤ) : ℚ) := by
  have h1 : totalDuration exFractionalAvg = 3 := by decide
  have h2 : buildsWithDuration exFractionalAvg = 2 := by decide
  have ha : avgDuration exFractionalAvg = 3 / 2 := by
    rw [avgDuration, h1, h2]; norm_num
  have hs : renderSeconds ((3 : ℚ) / 2) = 3 / 2 := by
    unfold renderSeconds; norm_num
  refine ⟨ha, by rw [ha]; exact hs, ?_, ?_⟩
  · rw [ha, hs]
    norm_num
  · rw [ha, hs]
    norm_num

/-! String machinery for the `travis_getOptimizationRecommendations` log
analyzer. JS string and regex operations are embedded as executable
functions on `List Char`; logs are ASCII, so `Char.toLower` agrees with JS
`toLowerCase` and the ASCII whitespace classes agree with JS `\s`. -/

/-- Substring test helper: does the second list start with the first. -/
def charsStartWith : List Char → List Char → Bool
  | [], _ => true
  | _ :: _, [] => false
  | c :: cs, d :: ds => c == d && charsStartWith cs ds

/-- JS `String.prototype.includes`: does `s` contain `pat` (case-sensitive). -/
def charsContain (pat : List Char) : List Char → Bool
  | [] => charsStartWith pat []
  | c :: cs => charsStartWith pat (c :: cs) || charsContain pat cs

/-- JS `line.includes(pat)`. -/
def includesStr (line pat : String) : Bool := charsContain pat.toList line.toList

/-- JS `toLowerCase` on ASCII text. -/
def lowerChars (cs : List Char) : List Char := cs.map Char.toLower

/-- Remainder of the text after the first occurrence of `pat`, when any. -/
def afterFirst (pat : List Char) : List Char → Option (List Char)
  | [] => if charsStartWith pat [] then some [] else none
  | c :: cs =>
    if charsStartWith pat (c :: cs) then some ((c :: cs).drop pat.length)
    else afterFirst pat cs

/-- Regex search `/a.*b/` within one line: some occurrence of `a` is
followed, at or after its end, by an occurrence of `b`. The first
occurrence of `a` has the least end position, so searching `b` after it is
equivalent to the regex's backtracking search. -/
def seqMatch (a b : List Char) (s : List Char) : Bool :=
  match afterFirst a s with
  | some rest => charsContain b rest
  | none => false

/-- JS `\s` on ASCII text (space, tab, newline, carriage return, vertical
tab, form feed). -/
def isWsp (c : Char) : Bool :=
  c == ' ' || c == '\t' || c == '\n' || c == '\r' || c == '\u000B' || c == '\u000C'

/-- Match a literal, returning the rest. -/
def litP (pat : List Char) (s : List Char) : Option (List Char) :=
  if charsStartWith pat s then some (s.drop pat.length) else none

/-- Match one or more characters of a class, greedily. The surrounding
patterns only use this where the following token cannot start with the
repeated class, so greedy matching is equivalent to backtracking. -/
def many1P (p : Char → Bool) (s : List Char) : Option (List Char) :=
  match s with
  | [] => none
  | c :: cs => if p c then some (cs.dropWhile p) else none

/-- Match zero or more characters of a class, greedily. -/
def starP (p : Char → Bool) (s : List Char) : List Char := s.dropWhile p

/-- Match an optional single character (`c?`). The surrounding patterns
only use this where consuming cannot turn a match into a failure. -/
def optCharP (c : Char) (s : List Char) : List Char :=
  match s with
  | [] => []
  | d :: ds => if d == c then ds else d :: ds

/-- Regex search driver: does the pattern match at some position. -/
def searchB (f : List Char → Bool) : List Char → Bool
  | [] => f []
  | c :: cs => f (c :: cs) || searchB f cs

/-- Regex `.*` (which does not cross newlines) followed by a continuation:
does the continuation match after skipping some run of non-newline
characters. -/
def dotStar (f : List Char → Bool) : List Char → Bool
  | [] => f []
  | c :: cs => f (c :: cs) || (!(c == '\n') && dotStar f cs)

/-- Test pattern 1, `/(\d+)\s+tests?,\s+(\d+)\s+passed/i`, matched at the
head of the (lowercased) text. -/
def testPat1At (s : List Char) : Bool :=
  (do
    let s1 ← many1P Char.isDigit s
    let s2 ← many1P isWsp s1
    let s3 ← litP "test".toList s2
    let s4 := optCharP 's' s3
    let s5 ← litP ",".toList s4
    let s6 ← many1P isWsp s5
    let s7 ← many1P Char.isDigit s6
    let s8 ← many1P isWsp s7
    let _ ← litP "passed".toList s8
    pure ()).isSome

/-- Test pattern 2, `/test suites?:.*\d+.*passed/i`, matched at the head:
`\d+.*` matches exactly when `\d.*` does. -/
def testPat2At (s : List Char) : Bool :=
  match litP "test suite".toList s with
  | none => false
  | some s1 =>
    match litP ":".toList (optCharP 's' s1) with
    | none => false
    | some s2 =>
      dotStar (fun t =>
        match t with
        | [] => false
        | c :: cs => c.isDigit && dotStar (charsStartWith "passed".toList) cs) s2

/-- The `(\d+\.?\d*)\s*(s|ms|min)` tail of test pattern 3, matched at the
head. -/
def numberUnitAt (t : List Char) : Bool :=
  match many1P Char.isDigit t with
  | none => false
  | some t1 =>
    let t4 := starP isWsp (starP Char.isDigit (optCharP '.' t1))
    charsStartWith "s".toList t4 || charsStartWith "ms".toList t4 ||
      charsStartWith "min".toList t4

/-- Test pattern 3, `/tests?.*completed in.*(\d+\.?\d*)\s*(s|ms|min)/i`,
matched at the head: `s?.*` matches exactly when `.*` does after consuming
an optional `s`. -/
def testPat3At (s : List Char) : Bool :=
  match litP "test".toList s with
  | none => false
  | some s1 =>
    dotStar (fun t =>
      match litP "completed in".toList t with
      | none => false
      | some t1 => dotStar numberUnitAt t1) (optCharP 's' s1)

/-- Test pattern 4, `/finished in.*(\d+\.?\d*)\s*seconds?/i`, matched at
the head. -/
def testPat4At (s : List Char) : Bool :=
  match litP "finished in".toList s with
  | none => false
  | some s1 =>
    dotStar (fun t =>
      match many1P Char.isDigit t with
      | none => false
      | some t1 =>
        charsStartWith "second".toList
          (starP isWsp (starP Char.isDigit (optCharP '.' t1)))) s1

/-- The loop `for (const pattern of testPatterns) { const match =
log.match(pattern); if (match) { ... break; } }`: some of the four
case-insensitive test regexes matches somewhere in the whole log text. -/
def testsDetected (logLower : List Char) : Bool :=
  searchB testPat1At logLower || searchB testPat2At logLower ||
    searchB testPat3At logLower || searchB testPat4At logLower

/-- JS `log.split('\n')` accumulator. -/
def splitLinesAux : List Char → List Char → List (List Char)
  | acc, [] => [acc.reverse]
  | acc, c :: cs =>
    if c == '\n' then acc.reverse :: splitLinesAux [] cs
    else splitLinesAux (c :: acc) cs

/-- JS `const lines = log.split('\n')`. -/
def splitLines (s : String) : List String :=
  (splitLinesAux [] s.toList).map String.mk

/-- One entry of the `findings` array: `{ category, detail }`. -/
structure Finding where
  category : String
  detail : String
deriving DecidableEq

/-- The five package-manager invocation substrings of pattern 1, in source
order. -/
def installSubstrings : List String :=
  ["npm install", "npm ci", "yarn install", "pip install", "bundle install"]

/-- `const npmInstallLines = lines.filter(line => line.includes('npm install') || ...)`. -/
def npmInstallLines (lines : List String) : List String :=
  lines.filter (fun line => installSubstrings.any (fun pat => includesStr line pat))

/-- Pattern 1: `if (npmInstallLines.length > 0) findings.push({...})`. -/
def depFinding (jobNumber : String) (lines : List String) : Option Finding :=
  if 0 < (npmInstallLines lines).length then
    some ⟨"Dependency Installation",
      "Job #" ++ jobNumber ++ ": Detected package installation. Consider caching dependencies."⟩
  else none

/-- `cacheHitPattern = /cache.*hit|using cached|cache.*restored/i` tested
on one line. -/
def cacheHitLine (line : String) : Bool :=
  let l := lowerChars line.toList
  seqMatch "cache".toList "hit".toList l || charsContain "using cached".toList l ||
    seqMatch "cache".toList "restored".toList l

/-- `cacheMissPattern = /cache.*miss|cache.*not found|downloading/i` tested
on one line. -/
def cacheMissLine (line : String) : Bool :=
  let l := lowerChars line.toList
  seqMatch "cache".toList "miss".toList l || seqMatch "cache".toList "not found".toList l ||
    charsContain "downloading".toList l

/-- Pattern 2: `if (hasCacheMiss && !hasCacheHit) findings.push({...})`. -/
def cacheFinding (jobNumber : String) (lines : List String) : Option Finding :=
  if (lines.any cacheMissLine) && !(lines.any cacheHitLine) then
    some ⟨"Caching",
      "Job #" ++ jobNumber ++ ": Cache misses detected. Verify cache configuration."⟩
  else none

/-- The `compilationPatterns` list: each regex is a case-insensitive
alternation of literals. -/
def compilationGroups : List (List String) :=
  [["tsc", "typescript compiler"], ["webpack", "rollup", "vite"],
   ["mvn compile", "gradle build"], ["cargo build", "go build"],
   ["npm run build", "yarn build"]]

/-- Pattern 3: the `for (const pattern of compilationPatterns)` loop pushes
one finding and breaks on the first group with a matching line, so a
finding is pushed exactly when some group matches some line. -/
def buildProcessFinding (jobNumber : String) (lines : List String) : Option Finding :=
  if compilationGroups.any (fun grp =>
      lines.any (fun line => grp.any (fun pat => charsContain pat.toList (lowerChars line.toList)))) then
    some ⟨"Build Process",
      "Job #" ++ jobNumber ++ ": Build/compilation detected. Consider caching build artifacts."⟩
  else none

/-- Pattern 4: pushed (once, with a break) when one of the four test
regexes matches the whole log text. -/
def testFinding (jobNumber : String) (log : String) : Option Finding :=
  if testsDetected (lowerChars log.toList) then
    some ⟨"Testing",
      "Job #" ++ jobNumber ++ ": Tests detected. Consider test splitting for parallel execution."⟩
  else none

/-- Pattern 5: `if (log.includes('docker pull') || log.includes('docker build'))`. -/
def dockerFinding (jobNumber : String) (log : String) : Option Finding :=
  if includesStr log "docker pull" || includesStr log "docker build" then
    some ⟨"Docker",
      "Job #" ++ jobNumber ++ ": Docker operations found. Consider using Docker layer caching."⟩
  else none

/-- The filter of pattern 6: `line.includes('Setting up') ||
line.includes('Installing') || line.includes('Downloading')`
(case-sensitive). -/
def setupLine (line : String) : Bool :=
  includesStr line "Setting up" || includesStr line "Installing" ||
    includesStr line "Downloading"

/-- `const setupSteps = lines.filter(...)`. -/
def setupSteps (lines : List String) : List String := lines.filter setupLine

/-- Pattern 6: `if (setupSteps.length > 10) findings.push({... (${setupSteps.length} steps).})`. -/
def setupFinding (jobNumber : String) (lines : List String) : Option Finding :=
  if 10 < (setupSteps lines).length then
    some ⟨"Setup Overhead",
      "Job #" ++ jobNumber ++ ": Multiple setup operations detected (" ++
        toString (setupSteps lines).length ++ " steps)."⟩
  else none

/-- The per-job body of the `for (const jobLog of jobLogs)` loop: the
findings pushed for one job, in push order. -/
def analyzeJob (jobNumber : String) (log : String) : List Finding :=
  let lines := splitLines log
  (depFinding jobNumber lines).toList ++ (cacheFinding jobNumber lines).toList ++
    (buildProcessFinding jobNumber lines).toList ++ (testFinding jobNumber log).toList ++
    (dockerFinding jobNumber log).toList ++ (setupFinding jobNumber lines).toList

/-- Identifier and display number of one job of the build. -/
structure JobRef where
  id : Nat
  number : String
deriving DecidableEq

/-- Outcome of the two per-job external fetches, as the already-stringified
result the `await travis(...)` calls produce: the log text (or the
stringified thrown error) and the job-detail duration (or the stringified
thrown error). -/
structure FetchEnv where
  logResult : Nat → Except String String
  detailDuration : Nat → Except String (Option Nat)

/-- One element of the `jobLogs` array. -/
structure JobLogEntry where
  jobId : Nat
  jobNumber : String
  log : String
  duration : Option Nat
deriving DecidableEq

/-- One `logPromises` mapper invocation. Both `await travis(...)` calls sit
inside a single `try`; when either rejects, the `catch` returns the entry
whose `log` is `` `Error fetching log: ${error}` `` and whose `duration` is
`undefined` — also when the log fetch itself succeeded. -/
def fetchJobLog (env : FetchEnv) (job : JobRef) : JobLogEntry :=
  match env.logResult job.id with
  | Except.error e => ⟨job.id, job.number, "Error fetching log: " ++ e, none⟩
  | Except.ok logText =>
    match env.detailDuration job.id with
    | Except.error e => ⟨job.id, job.number, "Error fetching log: " ++ e, none⟩
    | Except.ok d => ⟨job.id, job.number, logText, d⟩

/-- `const jobLogs = await Promise.all(logPromises)`: one entry per job, in
job order. -/
def jobLogs (env : FetchEnv) (jobs : List JobRef) : List JobLogEntry :=
  jobs.map (fetchJobLog env)

/-- The flat `findings` list accumulated across all jobs. -/
def allFindings (env : FetchEnv) (jobs : List JobRef) : List Finding :=
  (jobLogs env jobs).flatMap (fun e => analyzeJob e.jobNumber e.log)

/-- JS truthiness of `j.duration` (the `filter(j => j.duration)` and the
`jobLogs.some(j => j.duration)` gate): defined and nonzero. -/
def hasDur (e : JobLogEntry) : Bool :=
  match e.duration with
  | some d => decide (0 < d)
  | none => false

/-- `job.duration || 0`, as used by the sort comparator and the renderer. -/
def durOf (e : JobLogEntry) : Nat := e.duration.getD 0

/-- `jobLogs.filter(j => j.duration).sort((a, b) => (b.duration || 0) - (a.duration || 0))`:
a stable descending sort by duration (ES2019 `sort` is stable; `mergeSort`
is its stable Lean counterpart, with `a` kept before `b` exactly when the
comparator is nonpositive). -/
def sortedJobs (entries : List JobLogEntry) : List JobLogEntry :=
  List.mergeSort (entries.filter hasDur) (fun a b => decide (durOf b ≤ durOf a))

/-- `sortedJobs.slice(0, 3)`, the reported slowest jobs. -/
def slowestJobs (entries : List JobLogEntry) : List JobLogEntry :=
  (sortedJobs entries).take 3

/-- `if (sortedJobs[0].duration && sortedJobs[0].duration > 300)`: the
warning line is appended exactly when the slowest job's duration is truthy
and exceeds 300 seconds. -/
def slowWarning (entries : List JobLogEntry) : Bool :=
  match sortedJobs entries with
  | [] => false
  | j :: _ =>
    match j.duration with
    | some d => decide (300 < d)
    | none => false

theorem option_toList_length_le (o : Option Finding) : o.toList.length ≤ 1 := by
  cases o <;> simp

theorem option_toList_countP_le (o : Option Finding) (p : Finding → Bool) :
    o.toList.countP p ≤ 1 := by
  cases o
  · simp
  · exact (List.countP_le_length p).trans (by simp)

theorem depFinding_countP_zero (n : String) (ls : List String) (p : Finding → Bool)
    (hp : p ⟨"Dependency Installation",
      "Job #" ++ n ++ ": Detected package installation. Consider caching dependencies."⟩ = false) :
    (depFinding n ls).toList.countP p = 0 := by
  unfold depFinding; split <;> simp [List.countP_cons, hp]

theorem cacheFinding_countP_zero (n : String) (ls : List String) (p : Finding → Bool)
    (hp : p ⟨"Caching",
      "Job #" ++ n ++ ": Cache misses detected. Verify cache configuration."⟩ = false) :
    (cacheFinding n ls).toList.countP p = 0 := by
  unfold cacheFinding; split <;> simp [List.countP_cons, hp]

theorem buildProcessFinding_countP_zero (n : String) (ls : List String) (p : Finding → Bool)
    (hp : p ⟨"Build Process",
      "Job #" ++ n ++ ": Build/compilation detected. Consider caching build artifacts."⟩ = false) :
    (buildProcessFinding n ls).toList.countP p = 0 := by
  unfold buildProcessFinding; split <;> simp [List.countP_cons, hp]

theorem testFinding_countP_zero (n : String) (log : String) (p : Finding → Bool)
    (hp : p ⟨"Testing",
      "Job #" ++ n ++ ": Tests detected. Consider test splitting for parallel execution."⟩ = false) :
    (testFinding n log).toList.countP p = 0 := by
  unfold testFinding; split <;> simp [List.countP_cons, hp]

theorem dockerFinding_countP_zero (n : String) (log : String) (p : Finding → Bool)
    (hp : p ⟨"Docker",
      "Job #" ++ n ++ ": Docker operations found. Consider using Docker layer caching."⟩ = false) :
    (dockerFinding n log).toList.countP p = 0 := by
  unfold dockerFinding; split <;> simp [List.countP_cons, hp]

theorem setupFinding_countP_zero (n : String) (ls : List String) (p : Finding → Bool)
    (hp : p ⟨"Setup Overhead",
      "Job #" ++ n ++ ": Multiple setup operations detected (" ++
        toString (setupSteps ls).length ++ " steps)."⟩ = false) :
    (setupFinding n ls).toList.countP p = 0 := by
  unfold setupFinding; split <;> simp [List.countP_cons, hp]

/-- C10: for every job number and every log text, each job contributes at
most one finding per category, hence at most six findings in total. -/
theorem per_job_at_most_one_finding_per_category (jobNumber log : String) :
    (analyzeJob jobNumber log).length ≤ 6 ∧
    (analyzeJob jobNumber log).countP (fun f => f.category == "Dependency Installation") ≤ 1 ∧
    (analyzeJob jobNumber log).countP (fun f => f.category == "Caching") ≤ 1 ∧
    (analyzeJob jobNumber log).countP (fun f => f.category == "Build Process") ≤ 1 ∧
    (analyzeJob jobNumber log).countP (fun f => f.category == "Testing") ≤ 1 ∧
    (analyzeJob jobNumber log).countP (fun f => f.category == "Docker") ≤ 1 ∧
    (analyzeJob jobNumber log).countP (fun f => f.category == "Setup Overhead") ≤ 1 := by
  unfold analyzeJob
  simp only [List.length_append, List.countP_append]
  refine ⟨?_, ?_, ?_, ?_, ?_, ?_, ?_⟩
  · have h1 := option_toList_length_le (depFinding jobNumber (splitLines log))
    have h2 := option_toList_length_le (cacheFinding jobNumber (splitLines log))
    have h3 := option_toList_length_le (buildProcessFinding jobNumber (splitLines log))
    have h4 := option_toList_length_le (testFinding jobNumber log)
    have h5 := option_toList_length_le (dockerFinding jobNumber log)
    have h6 := option_toList_length_le (setupFinding jobNumber (splitLines log))
    omega
  · have h1 := option_toList_countP_le (depFinding jobNumber (splitLines log))
      (fun f => f.category == "Dependency Installation")
    have h2 := cacheFinding_countP_zero jobNumber (splitLines log)
      (fun f => f.category == "Dependency Installation") rfl
    have h3 := buildProcessFinding_countP_zero jobNumber (splitLines log)
      (fun f => f.category == "Dependency Installation") rfl
    have h4 := testFinding_countP_zero jobNumber log
      (fun f => f.category == "Dependency Installation") rfl
    have h5 := dockerFinding_countP_zero jobNumber log
      (fun f => f.category == "Dependency Installation") rfl
    have h6 := setupFinding_countP_zero jobNumber (splitLines log)
      (fun f => f.category == "Dependency Installation") rfl
    omega
  · have h1 := depFinding_countP_zero jobNumber (splitLines log)
      (fun f => f.category == "Caching") rfl
    have h2 := option_toList_countP_le (cacheFinding jobNumber (splitLines log))
      (fun f => f.category == "Caching")
    have h3 := buildProcessFinding_countP_zero jobNumber (splitLines log)
      (fun f => f.category == "Caching") rfl
    have h4 := testFinding_countP_zero jobNumber log
      (fun f => f.category == "Caching") rfl
    have h5 := dockerFinding_countP_zero jobNumber log
      (fun f => f.category == "Caching") rfl
    have h6 := setupFinding_countP_zero jobNumber (splitLines log)
      (fun f => f.category == "Caching") rfl
    omega
  · have h1 := depFinding_countP_zero jobNumber (splitLines log)
      (fun f => f.category == "Build Process") rfl
    have h2 := cacheFinding_countP_zero jobNumber (splitLines log)
      (fun f => f.category == "Build Process") rfl
    have h3 := option_toList_countP_le (buildProcessFinding jobNumber (splitLines log))
      (fun f => f.category == "Build Process")
    have h4 := testFinding_countP_zero jobNumber log
      (fun f => f.category == "Build Process") rfl
    have h5 := dockerFinding_countP_zero jobNumber log
      (fun f => f.category == "Build Process") rfl
    have h6 := setupFinding_countP_zero jobNumber (splitLines log)
      (fun f => f.category == "Build Process") rfl
    omega
  · have h1 := depFinding_countP_zero jobNumber (splitLines log)
      (fun f => f.category == "Testing") rfl
    have h2 := cacheFinding_countP_zero jobNumber (splitLines log)
      (fun f => f.category == "Testing") rfl
    have h3 := buildProcessFinding_countP_zero jobNumber (splitLines log)
      (fun f => f.category == "Testing") rfl
    have h4 := option_toList_countP_le (testFinding jobNumber log)
      (fun f => f.category == "Testing")
    have h5 := dockerFinding_countP_zero jobNumber log
      (fun f => f.category == "Testing") rfl
    have h6 := setupFinding_countP_zero jobNumber (splitLines log)
      (fun f => f.category == "Testing") rfl
    omega
  · have h1 := depFinding_countP_zero jobNumber (splitLines log)
      (fun f => f.category == "Docker") rfl
    have h2 := cacheFinding_countP_zero jobNumber (splitLines log)
      (fun f => f.category == "Docker") rfl
    have h3 := buildProcessFinding_countP_zero jobNumber (splitLines log)
      (fun f => f.category == "Docker") rfl
    have h4 := testFinding_countP_zero jobNumber log
      (fun f => f.category == "Docker") rfl
    have h5 := option_toList_countP_le (dockerFinding jobNumber log)
      (fun f => f.category == "Docker")
    have h6 := setupFinding_countP_zero jobNumber (splitLines log)
      (fun f => f.category == "Docker") rfl
    omega
  · have h1 := depFinding_countP_zero jobNumber (splitLines log)
      (fun f => f.category == "Setup Overhead") rfl
    have h2 := cacheFinding_countP_zero jobNumber (splitLines log)
      (fun f => f.category == "Setup Overhead") rfl
    have h3 := buildProcessFinding_countP_zero jobNumber (splitLines log)
      (fun f => f.category == "Setup Overhead") rfl
    have h4 := testFinding_countP_zero jobNumber log
      (fun f => f.category == "Setup Overhead") rfl
    have h5 := dockerFinding_countP_zero jobNumber log
      (fun f => f.category == "Setup Overhead") rfl
    have h6 := option_toList_countP_le (setupFinding jobNumber (splitLines log))
      (fun f => f.category == "Setup Overhead")
    omega

/-- Log text with exactly ten lines matching the setup-step filter. -/
def exLog10 : String := "Installing pkg\nInstalling pkg\nInstalling pkg\nInstalling pkg\nInstalling pkg\nInstalling pkg\nInstalling pkg\nInstalling pkg\nInstalling pkg\nInstalling pkg"

/-- Log text with exactly eleven lines matching the setup-step filter. -/
def exLog11 : String := "Installing pkg\nInstalling pkg\nInstalling pkg\nInstalling pkg\nInstalling pkg\nInstalling pkg\nInstalling pkg\nInstalling pkg\nInstalling pkg\nInstalling pkg\nInstalling pkg"

/-- C9: for every job a Setup Overhead finding is emitted among the job's
findings exactly when the number of log lines containing `Setting up`,
`Installing` or `Downloading` is strictly greater than 10, and the finding
names that exact count; a log with exactly 10 matching lines yields no
Setup Overhead finding and one with 11 yields it. -/
theorem setup_overhead_threshold :
    (∀ jobNumber log : String,
      ((analyzeJob jobNumber log).any (fun f => f.category == "Setup Overhead")) =
        decide (10 < (setupSteps (splitLines log)).length) ∧
      (10 < (setupSteps (splitLines log)).length →
        setupFinding jobNumber (splitLines log) = some ⟨"Setup Overhead",
          "Job #" ++ jobNumber ++ ": Multiple setup operations detected (" ++
            toString (setupSteps (splitLines log)).length ++ " steps)."⟩)) ∧
    (setupSteps (splitLines exLog10)).length = 10 ∧
    analyzeJob "1.1" exLog10 = [] ∧
    (setupSteps (splitLines exLog11)).length = 11 ∧
    analyzeJob "1.1" exLog11 =
      [⟨"Setup Overhead", "Job #1.1: Multiple setup operations detected (11 steps)."⟩] := by
  refine ⟨fun jobNumber log => ⟨?_, ?_⟩, by decide, by decide, by decide, by decide⟩
  · unfold analyzeJob
    simp only [List.any_append]
    have hA : ((depFinding jobNumber (splitLines log)).toList.any
        (fun f => f.category == "Setup Overhead")) = false := by
      unfold depFinding; split <;> rfl
    have hB : ((cacheFinding jobNumber (splitLines log)).toList.any
        (fun f => f.category == "Setup Overhead")) = false := by
      unfold cacheFinding; split <;> rfl
    have hC : ((buildProcessFinding jobNumber (splitLines log)).toList.any
        (fun f => f.category == "Setup Overhead")) = false := by
      unfold buildProcessFinding; split <;> rfl
    have hD : ((testFinding jobNumber log).toList.any
        (fun f => f.category == "Setup Overhead")) = false := by
      unfold testFinding; split <;> rfl
    have hE : ((dockerFinding jobNumber log).toList.any
        (fun f => f.category == "Setup Overhead")) = false := by
      unfold dockerFinding; split <;> rfl
    have hF : ((setupFinding jobNumber (splitLines log)).toList.any
        (fun f => f.category == "Setup Overhead")) =
        decide (10 < (setupSteps (splitLines log)).length) := by
      unfold setupFinding
      split_ifs with h <;> simp [h]
    rw [hA, hB, hC, hD, hE, hF]
    simp
  · intro h
    unfold setupFinding
    rw [if_pos h]

theorem setup_overhead_threshold_witness :
    setupFinding "1.1" (splitLines exLog11) = some ⟨"Setup Overhead",
      "Job #1.1: Multiple setup operations detected (11 steps)."⟩ := by
  have h := (setup_overhead_threshold.1 "1.1" exLog11).2 (by decide)
  exact h.trans (by decide)

/-- Job with a 400-second duration. -/
def exJobA : JobLogEntry := ⟨1, "1.1", "", some 400⟩

/-- Job with a 100-second duration. -/
def exJobB : JobLogEntry := ⟨2, "1.2", "", some 100⟩

/-- Job with a 200-second duration. -/
def exJobC : JobLogEntry := ⟨3, "1.3", "", some 200⟩

/-- The three-job example of the claim, in fetch order. -/
def exSlow : List JobLogEntry := [exJobA, exJobB, exJobC]

/-- C8: the slowest-jobs ranking is computed over exactly the jobs with a
known positive duration, sorted descending by duration and truncated to 3
entries; for durations 400s, 100s, 200s the list is the 400s job, then the
200s job, then the 100s job, rendered 6m 40s, 3m 20s and 1m 40s, and the
over-300-seconds warning is present. -/
theorem slowest_jobs_ranking :
    (∀ entries : List JobLogEntry,
      List.Perm (sortedJobs entries) (entries.filter hasDur) ∧
      List.Pairwise (fun a b => durOf b ≤ durOf a) (sortedJobs entries) ∧
      slowestJobs entries = (sortedJobs entries).take 3 ∧
      (slowestJobs entries).length ≤ 3 ∧
      (slowestJobs entries).all hasDur = true) ∧
    sortedJobs exSlow = [exJobA, exJobC, exJobB] ∧
    slowestJobs exSlow = [exJobA, exJobC, exJobB] ∧
    slowWarning exSlow = true ∧
    renderMinutes (durOf exJobA : ℚ) = 6 ∧ renderSeconds (durOf exJobA : ℚ) = 40 ∧
    renderMinutes (durOf exJobC : ℚ) = 3 ∧ renderSeconds (durOf exJobC : ℚ) = 20 ∧
    renderMinutes (durOf exJobB : ℚ) = 1 ∧ renderSeconds (durOf exJobB : ℚ) = 40 := by
  have hgen : ∀ entries : List JobLogEntry,
      List.Perm (sortedJobs entries) (entries.filter hasDur) ∧
      List.Pairwise (fun a b => durOf b ≤ durOf a) (sortedJobs entries) ∧
      slowestJobs entries = (sortedJobs entries).take 3 ∧
      (slowestJobs entries).length ≤ 3 ∧
      (slowestJobs entries).all hasDur = true := by
    intro entries
    have htrans : ∀ a b c : JobLogEntry,
        (fun a b => decide (durOf b ≤ durOf a)) a b →
        (fun a b => decide (durOf b ≤ durOf a)) b c →
        (fun a b => decide (durOf b ≤ durOf a)) a c := by
      intro a b c hab hbc
      simp only [decide_eq_true_eq] at *
      omega
    have htotal : ∀ a b : JobLogEntry,
        ((fun a b => decide (durOf b ≤ durOf a)) a b ||
          (fun a b => decide (durOf b ≤ durOf a)) b a) = true := by
      intro a b
      rcases Nat.le_total (durOf b) (durOf a) with h | h <;> simp [h]
    have hs := @List.sorted_mergeSort JobLogEntry
      (fun a b => decide (durOf b ≤ durOf a)) htrans htotal (entries.filter hasDur)
    refine ⟨List.mergeSort_perm _ _, ?_, rfl, ?_, ?_⟩
    · exact hs.imp (fun h => of_decide_eq_true h)
    · simp only [slowestJobs, List.length_take]
      omega
    · rw [List.all_eq_true]
      intro j hj
      have h1 : j ∈ sortedJobs entries := List.take_subset _ _ hj
      have h2 : j ∈ entries.filter hasDur := List.mem_mergeSort.mp h1
      exact List.of_mem_filter h2
  have hconc : sortedJobs exSlow = [exJobA, exJobC, exJobB] := by
    simp [sortedJobs, exSlow, exJobA, exJobB, exJobC, hasDur, durOf, List.mergeSort]
  have hwarn : slowWarning exSlow = true := by
    unfold slowWarning
    rw [hconc]
    rfl
  refine ⟨hgen, hconc, by rw [slowestJobs, hconc]; rfl, hwarn, ?_, ?_, ?_, ?_, ?_, ?_⟩
  · rw [renderMinutes_natCast]; decide
  · rw [renderSeconds_natCast]; norm_num [durOf, exJobA]
  · rw [renderMinutes_natCast]; decide
  · rw [renderSeconds_natCast]; norm_num [durOf, exJobC]
  · rw [renderMinutes_natCast]; decide
  · rw [renderSeconds_natCast]; norm_num [durOf, exJobB]

/-- Fetch environment where every log fetch succeeds with the text
`npm install` and every job-detail fetch fails. -/
def exDetailFailEnv : FetchEnv :=
  ⟨fun _ => Except.ok "npm install", fun _ => Except.error "boom"⟩

theorem detail_failure_claim_counterexample :
    fetchJobLog exDetailFailEnv ⟨1, "1.1"⟩ =
      ⟨1, "1.1", "Error fetching log: boom", none⟩ ∧
    (fetchJobLog exDetailFailEnv ⟨1, "1.1"⟩).log ≠ "npm install" ∧
    analyzeJob "1.1" (fetchJobLog exDetailFailEnv ⟨1, "1.1"⟩).log = [] ∧
    analyzeJob "1.1" "npm install" = [⟨"Dependency Installation",
      "Job #1.1: Detected package installation. Consider caching dependencies."⟩] := by
  refine ⟨rfl, by decide, by decide, by decide⟩

/-- C2 (amended): when a job's log fetch succeeds but its job-detail
(duration) lookup fails, the failure is not fatal — the mapper still
returns an entry — but the shared `catch` discards the fetched log text:
the entry's log content becomes the literal string
`Error fetching log: <error>` (so the fetched text is not analyzed and the
error string is what pattern analysis sees) and the duration is absent. -/
theorem detail_failure_not_fatal (env : FetchEnv) (job : JobRef) (s e : String)
    (hlog : env.logResult job.id = Except.ok s)
    (hdet : env.detailDuration job.id = Except.error e) :
    fetchJobLog env job = ⟨job.id, job.number, "Error fetching log: " ++ e, none⟩ := by
  unfold fetchJobLog
  rw [hlog, hdet]

theorem detail_failure_not_fatal_witness :
    fetchJobLog exDetailFailEnv ⟨1, "1.1"⟩ = ⟨1, "1.1", "Error fetching log: boom", none⟩ :=
  detail_failure_not_fatal exDetailFailEnv ⟨1, "1.1"⟩ "npm install" "boom" rfl rfl

/-- Fetch environment where every log fetch fails with a stringified error
whose text happens to contain `npm install`. -/
def exLogFailEnv : FetchEnv :=
  ⟨fun _ => Except.error "Error: Travis API error 500: npm install",
   fun _ => Except.ok (some 10)⟩

theorem failed_fetch_findings_counterexample :
    (fetchJobLog exLogFailEnv ⟨2, "2.1"⟩).log =
      "Error fetching log: Error: Travis API error 500: npm install" ∧
    analyzeJob "2.1" (fetchJobLog exLogFailEnv ⟨2, "2.1"⟩).log =
      [⟨"Dependency Installation",
        "Job #2.1: Detected package installation. Consider caching dependencies."⟩] := by
  refine ⟨rfl, by decide⟩

/-- C7 (amended): a failure of an individual job's log fetch never
propagates out of the analyzer: every job still yields an entry (the
report covers all jobs, in order), the failed job's log content is the
literal string `Error fetching log: <error>`, and the flat findings list
is the per-job concatenation of each job's own analysis — so other jobs
are analyzed normally. The substituted entry contributes exactly the
findings its error text itself matches: none for a typical API error text
(the fixed prefix matches no pattern), though an error text containing a
trigger phrase still produces findings. -/
theorem failed_fetch_isolated (env : FetchEnv) (jobs : List JobRef) (job : JobRef)
    (e : String) (hfail : env.logResult job.id = Except.error e) :
    (jobLogs env jobs).length = jobs.length ∧
    fetchJobLog env job = ⟨job.id, job.number, "Error fetching log: " ++ e, none⟩ ∧
    allFindings env jobs =
      (jobs.map (fun j => analyzeJob (fetchJobLog env j).jobNumber (fetchJobLog env j).log)).flatten ∧
    analyzeJob "1.1" "Error fetching log: Error: Travis API error 404: not found" = [] := by
  refine ⟨by simp [jobLogs], ?_, ?_, by decide⟩
  · unfold fetchJobLog
    rw [hfail]
  · rw [allFindings, jobLogs, List.flatMap_def, List.map_map]
    rfl

theorem failed_fetch_isolated_witness :
    (jobLogs exLogFailEnv [⟨2, "2.1"⟩]).length = 1 ∧
    fetchJobLog exLogFailEnv ⟨2, "2.1"⟩ =
      ⟨2, "2.1", "Error fetching log: Error: Travis API error 500: npm install", none⟩ := by
  have h := failed_fetch_isolated exLogFailEnv [⟨2, "2.1"⟩] ⟨2, "2.1"⟩
    "Error: Travis API error 500: npm install" rfl
  exact ⟨h.1, (h.2.1).trans (by decide)⟩

end McpTravis
